import Mathlib

/-!
Verification of the duel lifecycle engine of `duel_bot.py` (DuelBot V4).

The embedding models the persisted JSON store (`players`, `duels`, `history`)
as association lists with Python-dict semantics (insertion order, first binding
wins, update in place, append on new key).  Timestamps are modelled as integer
seconds; artifact sizes as natural numbers of bytes.  Handlers that in the
source load the store, mutate it and `save_data` it are modelled as functions
from the store to the store; handler paths that return without `save_data`
leave the store unchanged.  Message sending, logging and display formatting
are I/O and are not modelled.
-/

namespace DuelBot

/-- Association-list lookup modelling Python dict access (first binding wins). -/
def alookup {κ α : Type} [DecidableEq κ] (k : κ) : List (κ × α) → Option α
  | [] => none
  | p :: rest => if k = p.1 then some p.2 else alookup k rest

/-- Association-list update modelling Python dict assignment: an existing key
keeps its position, a new key is appended (dict insertion order). -/
def aset {κ α : Type} [DecidableEq κ] (k : κ) (v : α) : List (κ × α) → List (κ × α)
  | [] => [(k, v)]
  | p :: rest => if k = p.1 then (k, v) :: rest else p :: aset k v rest

/-- Association-list deletion modelling Python `del d[k]` (dict keys are
unique, so removing every binding of `k` coincides with removing the one). -/
def aerase {κ α : Type} [DecidableEq κ] (k : κ) : List (κ × α) → List (κ × α)
  | [] => []
  | p :: rest => if p.1 = k then aerase k rest else p :: aerase k rest

/-- `status` field of a stored duel: `"pending"`, `"scheduled"` or `"active"`.
Settled and cancelled duels are deleted from the store, never stored. -/
inductive DuelStatus : Type
  | pending
  | scheduled
  | active
  deriving DecidableEq, Repr

/-- A player record as created by `get_player`: `points`, `wins`, `losses`,
`duels_played`, `channel_id`.  Display-only fields (`username`, `timezone`,
`channel_name`, `joined`) are omitted. -/
structure Player : Type where
  points : Int
  wins : Nat
  losses : Nat
  duelsPlayed : Nat
  channelId : Option Int
  deriving DecidableEq, Repr

/-- The record `get_player` creates on first reference. -/
def Player.fresh : Player :=
  { points := 0, wins := 0, losses := 0, duelsPlayed := 0, channelId := none }

/-- One entry of a duel's `video_timestamps` dict: timestamp, size and the
`big` classification (the source stores a rounded size in MiB plus the channel
title for display; we keep the exact byte count). -/
structure VideoRecord : Type where
  ts : Int
  sizeBytes : Nat
  big : Bool
  deriving DecidableEq, Repr

/-- A duel record as written by `cmd_duel` and mutated by the handlers.
`videoTimestamps` models the `video_timestamps` dict (created lazily in the
source, equivalently empty at creation); display-only name fields are
omitted.  The unused `videos_posted` field is omitted. -/
structure Duel : Type where
  challengerId : Int
  challengedId : Int
  challengerChannel : Int
  challengedChannel : Int
  status : DuelStatus
  createdAt : Int
  scheduledTs : Option Int
  startedAt : Option Int
  penaltyFlag : List Int
  videoTimestamps : List (Int × VideoRecord)
  deriving DecidableEq, Repr

/-- A history entry appended at settlement (the source stores usernames and an
ISO date for display; we keep the player ids and omit the date). -/
structure HistEntry : Type where
  winnerId : Int
  loserId : Int
  pointsWon : Int
  videoSizeBytes : Nat
  elapsedSec : Int
  deriving DecidableEq, Repr

/-- Canonical duel key: the source uses the string
`f"{min(a,b)}_{max(a,b)}"`, injective in the ordered pair `(min, max)`. -/
abbrev DuelKey := Int × Int

/-- The persisted store `duel_data.json`: `players`, `duels`, `history`
(the `registered_channels` table is display/routing metadata, unused by the
duel engine, and is omitted). -/
structure Data : Type where
  players : List (Int × Player)
  duels : List (DuelKey × Duel)
  history : List HistEntry
  deriving DecidableEq, Repr

/-- `get_player`'s creation effect: ensure the player record exists, creating
a fresh one (appended, dict order) if absent. -/
def ensurePlayer (d : Data) (uid : Int) : Data :=
  match alookup uid d.players with
  | some _ => d
  | none => { d with players := d.players ++ [(uid, Player.fresh)] }

/-- Read a player record, defaulting to the fresh record (matches reading
right after `get_player` ensured existence). -/
def getPlayerD (d : Data) (uid : Int) : Player :=
  (alookup uid d.players).getD Player.fresh

/-- `get_player` followed by a field mutation of that player, as the source
does for every score/counter update. -/
def modifyPlayer (d : Data) (uid : Int) (f : Player → Player) : Data :=
  let d1 := ensurePlayer d uid
  { d1 with players := aset uid (f (getPlayerD d1 uid)) d1.players }

/-- `VIDEO_MIN_SIZE = 70 * 1024 * 1024` (70 MiB). -/
def VIDEO_MIN_SIZE : Nat := 70 * 1024 * 1024

/-- The loop of `handle_video`: the first duel in store iteration order that
is `active` and whose snapshotted channels contain the originating chat (the
loop `continue`s past every other duel and `break`s after the first match). -/
def findActiveMatch (chatId : Int) : List (DuelKey × Duel) → Option (DuelKey × Duel)
  | [] => none
  | (k, d) :: rest =>
    if d.status = DuelStatus.active ∧
        (chatId = d.challengerChannel ∨ chatId = d.challengedChannel) then
      some (k, d)
    else
      findActiveMatch chatId rest

/-- Which participant posted, and their opponent: the source compares
`chat_id == challenger_channel` first. -/
def posterOf (chatId : Int) (duel : Duel) : Int × Int :=
  if chatId = duel.challengerChannel then (duel.challengerId, duel.challengedId)
  else (duel.challengedId, duel.challengerId)

/-- Sub-threshold branch of `handle_video`: record the video timestamp, set
the poster's `penalty_flag`, subtract 3 points, keep the duel in the store. -/
def applyPenalty (d : Data) (key : DuelKey) (duel : Duel) (posterId : Int)
    (vrec : VideoRecord) : Data :=
  let duel1 : Duel :=
    { duel with
      videoTimestamps := aset posterId vrec duel.videoTimestamps,
      penaltyFlag :=
        if posterId ∈ duel.penaltyFlag then duel.penaltyFlag
        else duel.penaltyFlag ++ [posterId] }
  let d1 : Data := { d with duels := aset key duel1 d.duels }
  modifyPlayer d1 posterId (fun p => { p with points := p.points - 3 })

/-- Qualifying branch of `handle_video`: comeback bonus 6 else 3 to the
winner, unconditional −1 to the opponent, win/loss/played counters, history
entry, duel deleted.  (The poster's video-timestamp write is to the record
being deleted, hence invisible in the resulting store.) -/
def settleDuel (d : Data) (key : DuelKey) (duel : Duel) (posterId opponentId : Int)
    (videoSize : Nat) (nowTs : Int) : Data :=
  let hadPenalty := posterId ∈ duel.penaltyFlag
  let pointsWon : Int := if hadPenalty then 6 else 3
  let elapsed : Int := nowTs - duel.startedAt.getD nowTs
  let d1 := modifyPlayer d posterId (fun p =>
    { p with points := p.points + pointsWon, wins := p.wins + 1,
             duelsPlayed := p.duelsPlayed + 1 })
  let d2 := modifyPlayer d1 opponentId (fun p =>
    { p with points := p.points - 1, losses := p.losses + 1,
             duelsPlayed := p.duelsPlayed + 1 })
  { d2 with
    history := d2.history ++
      [{ winnerId := posterId, loserId := opponentId, pointsWon := pointsWon,
         videoSizeBytes := videoSize, elapsedSec := elapsed }],
    duels := aerase key d2.duels }

/-- `handle_video` after extracting `chat_id` and `video_size` from the
message: zero size returns immediately; otherwise the first matching active
duel is penalised or settled and the loop breaks. -/
def handle_video (d : Data) (chatId : Int) (videoSize : Nat) (nowTs : Int) : Data :=
  if videoSize = 0 then d
  else
    match findActiveMatch chatId d.duels with
    | none => d
    | some (key, duel) =>
      let pr := posterOf chatId duel
      if videoSize < VIDEO_MIN_SIZE then
        applyPenalty d key duel pr.1
          { ts := nowTs, sizeBytes := videoSize, big := false }
      else
        settleDuel d key duel pr.1 pr.2 videoSize nowTs

/-- Outcome tag of `cmd_duel` (each error is a distinct reply message in the
source; time-format parse failure is outside the model, which takes the
already-resolved schedule instant as input). -/
inductive DuelCmdResult : Type
  | targetNotRegistered
  | selfChallenge
  | challengerNoChannel
  | targetNoChannel
  | duelAlreadyExists
  | invalidScheduleTime
  | created
  deriving DecidableEq, Repr

/-- Result of `cmd_duel`: the saved store, whether the accept-timeout task
was spawned (`asyncio.create_task(duel_accept_timeout ...)`), and the reply. -/
structure CmdOut : Type where
  store : Data
  acceptTimerArmed : Bool
  result : DuelCmdResult
  deriving DecidableEq, Repr

/-- The duel record `cmd_duel` writes on success. -/
def mkDuel (cid tid cch tch : Int) (sched : Option Int) (now : Int) : Duel :=
  { challengerId := cid, challengedId := tid,
    challengerChannel := cch, challengedChannel := tch,
    status := DuelStatus.pending, createdAt := now, scheduledTs := sched,
    startedAt := none, penaltyFlag := [], videoTimestamps := [] }

/-- Canonical pair key `(min, max)` of the two participant ids. -/
def duelKey (a b : Int) : DuelKey := (min a b, max a b)

/-- `cmd_duel` after username resolution: checks in source order — target
registered, not a self-challenge, both channels registered, no duel already
stored under the pair key, schedule instant at least 2 minutes (120 s) in the
future — then writes the pending duel and arms the accept timer.  Every error
path returns before `save_data`, so the persisted store is unchanged there. -/
def cmd_duel (d : Data) (challengerId targetUid : Int) (scheduledTs : Option Int)
    (now : Int) : CmdOut :=
  match alookup targetUid d.players with
  | none => { store := d, acceptTimerArmed := false,
              result := DuelCmdResult.targetNotRegistered }
  | some targetP =>
    if targetUid = challengerId then
      { store := d, acceptTimerArmed := false, result := DuelCmdResult.selfChallenge }
    else
      let d1 := ensurePlayer d challengerId
      match (getPlayerD d1 challengerId).channelId with
      | none => { store := d, acceptTimerArmed := false,
                  result := DuelCmdResult.challengerNoChannel }
      | some cch =>
        match targetP.channelId with
        | none => { store := d, acceptTimerArmed := false,
                    result := DuelCmdResult.targetNoChannel }
        | some tch =>
          let key := duelKey challengerId targetUid
          if (alookup key d1.duels).isSome then
            { store := d, acceptTimerArmed := false,
              result := DuelCmdResult.duelAlreadyExists }
          else
            match scheduledTs with
            | some ts =>
              if ts < now + 120 then
                { store := d, acceptTimerArmed := false,
                  result := DuelCmdResult.invalidScheduleTime }
              else
                let newDuels := aset key (mkDuel challengerId targetUid cch tch (some ts) now) d1.duels
                { store := { d1 with duels := newDuels },
                  acceptTimerArmed := true, result := DuelCmdResult.created }
            | none =>
              let newDuels := aset key (mkDuel challengerId targetUid cch tch none now) d1.duels
              { store := { d1 with duels := newDuels },
                acceptTimerArmed := true, result := DuelCmdResult.created }

/-- Reply of `cmd_cancel`. -/
inductive CancelResult : Type
  | cancelled (key : DuelKey)
  | noDuel
  deriving DecidableEq, Repr

/-- The loop of `cmd_cancel`: the first duel in store order in which the
caller participates — with no status condition whatsoever. -/
def findUserDuel (userId : Int) : List (DuelKey × Duel) → Option (DuelKey × Duel)
  | [] => none
  | (k, d) :: rest =>
    if userId = d.challengerId ∨ userId = d.challengedId then some (k, d)
    else findUserDuel userId rest

/-- `cmd_cancel`: delete the caller's first stored duel (any status), else
reply that there is no duel to cancel. -/
def cmd_cancel (d : Data) (userId : Int) : Data × CancelResult :=
  match findUserDuel userId d.duels with
  | none => (d, CancelResult.noDuel)
  | some (k, _) => ({ d with duels := aerase k d.duels }, CancelResult.cancelled k)

/-- Body of `duel_accept_timeout` after the sleep: delete the duel only if it
is still stored and still `pending`. -/
def duel_accept_timeout (d : Data) (key : DuelKey) : Data :=
  match alookup key d.duels with
  | none => d
  | some duel =>
    if duel.status = DuelStatus.pending then { d with duels := aerase key d.duels }
    else d

/-- Body of `duel_video_timeout` after the sleep: delete the duel only if it
is still stored and still `active`; players and history are untouched. -/
def duel_video_timeout (d : Data) (key : DuelKey) : Data :=
  match alookup key d.duels with
  | none => d
  | some duel =>
    if duel.status = DuelStatus.active then { d with duels := aerase key d.duels }
    else d

/-- Result of the scheduled-start firing: the saved store and whether the
video-timeout task was spawned. -/
structure StartOut : Type where
  store : Data
  videoTimerArmed : Bool
  deriving DecidableEq, Repr

/-- State-changing tail of `scheduled_duel_start` after the sleeps (the
reminder block only sends a message): activate the duel only if it is still
stored and still `scheduled`, then arm the video timeout. -/
def scheduled_duel_start_fire (d : Data) (key : DuelKey) (now : Int) : StartOut :=
  match alookup key d.duels with
  | none => { store := d, videoTimerArmed := false }
  | some duel =>
    if duel.status = DuelStatus.scheduled then
      let newDuels := aset key { duel with status := DuelStatus.active, startedAt := some now } d.duels
      { store := { d with duels := newDuels }, videoTimerArmed := true }
    else
      { store := d, videoTimerArmed := false }

/-- The stored status of a duel key, `none` when the duel has been removed. -/
def statusAt (d : Data) (key : DuelKey) : Option DuelStatus :=
  (alookup key d.duels).map Duel.status

/-! ### Association-list lemmas -/

theorem alookup_aset_self {κ α : Type} [DecidableEq κ] (k : κ) (v : α)
    (l : List (κ × α)) : alookup k (aset k v l) = some v := by
  induction l with
  | nil => simp [aset, alookup]
  | cons p rest ih =>
    by_cases h : k = p.1
    · simp [aset, alookup, h]
    · simp [aset, alookup, h, ih]

theorem alookup_aset_ne {κ α : Type} [DecidableEq κ] {k k' : κ} (h : k' ≠ k)
    (v : α) (l : List (κ × α)) : alookup k' (aset k v l) = alookup k' l := by
  induction l with
  | nil => simp [aset, alookup, h]
  | cons p rest ih =>
    by_cases h2 : k = p.1
    · subst h2
      simp [aset, alookup, h]
    · by_cases h3 : k' = p.1
      · simp [aset, alookup, h2, h3]
      · simp [aset, alookup, h2, h3, ih]

theorem alookup_aerase_self {κ α : Type} [DecidableEq κ] (k : κ)
    (l : List (κ × α)) : alookup k (aerase k l) = none := by
  induction l with
  | nil => simp [aerase, alookup]
  | cons p rest ih =>
    by_cases h : p.1 = k
    · simp [aerase, alookup, h, ih]
    · have h2 : k ≠ p.1 := fun hk => h hk.symm
      simp [aerase, alookup, h, h2, ih]

theorem alookup_aerase_ne {κ α : Type} [DecidableEq κ] {k k' : κ} (h : k' ≠ k)
    (l : List (κ × α)) : alookup k' (aerase k l) = alookup k' l := by
  induction l with
  | nil => simp [aerase]
  | cons p rest ih =>
    by_cases h2 : p.1 = k
    · have h3 : k' ≠ p.1 := fun hk => h (hk.trans h2)
      simp [aerase, alookup, h2, h3, h, ih]
    · simp [aerase, alookup, h2, ih]

theorem alookup_append_of_none {κ α : Type} [DecidableEq κ] {k : κ}
    {l l' : List (κ × α)} (h : alookup k l = none) :
    alookup k (l ++ l') = alookup k l' := by
  induction l with
  | nil => simp
  | cons p rest ih =>
    by_cases h2 : k = p.1
    · simp [alookup, h2] at h
    · simp [alookup, h2] at h ⊢
      exact ih h

theorem alookup_append_of_some {κ α : Type} [DecidableEq κ] {k : κ} {v : α}
    {l l' : List (κ × α)} (h : alookup k l = some v) :
    alookup k (l ++ l') = some v := by
  induction l with
  | nil => simp [alookup] at h
  | cons p rest ih =>
    by_cases h2 : k = p.1
    · simp [alookup, h2] at h ⊢
      exact h
    · simp [alookup, h2] at h ⊢
      exact ih h

/-! ### Store helper lemmas -/

theorem ensurePlayer_duels (d : Data) (uid : Int) :
    (ensurePlayer d uid).duels = d.duels := by
  unfold ensurePlayer
  cases alookup uid d.players <;> rfl

theorem ensurePlayer_history (d : Data) (uid : Int) :
    (ensurePlayer d uid).history = d.history := by
  unfold ensurePlayer
  cases alookup uid d.players <;> rfl

theorem getPlayerD_ensure (d : Data) (uid uid' : Int) :
    getPlayerD (ensurePlayer d uid) uid' = getPlayerD d uid' := by
  unfold ensurePlayer getPlayerD
  cases h : alookup uid d.players with
  | some p => rfl
  | none =>
    show (alookup uid' (d.players ++ [(uid, Player.fresh)])).getD Player.fresh = _
    cases h2 : alookup uid' d.players with
    | some v => rw [alookup_append_of_some h2]
    | none =>
      rw [alookup_append_of_none h2]
      by_cases h3 : uid' = uid
      · subst h3
        simp [alookup]
      · simp [alookup, h3]

theorem modifyPlayer_duels (d : Data) (uid : Int) (f : Player → Player) :
    (modifyPlayer d uid f).duels = d.duels := by
  unfold modifyPlayer
  simp [ensurePlayer_duels]

theorem modifyPlayer_history (d : Data) (uid : Int) (f : Player → Player) :
    (modifyPlayer d uid f).history = d.history := by
  unfold modifyPlayer
  simp [ensurePlayer_history]

theorem getPlayerD_modify_self (d : Data) (uid : Int) (f : Player → Player) :
    getPlayerD (modifyPlayer d uid f) uid = f (getPlayerD d uid) := by
  unfold modifyPlayer
  show ((alookup uid (aset uid _ (ensurePlayer d uid).players)).getD Player.fresh) = _
  rw [alookup_aset_self]
  simp [getPlayerD_ensure]

theorem getPlayerD_modify_ne (d : Data) {uid uid' : Int} (h : uid' ≠ uid)
    (f : Player → Player) :
    getPlayerD (modifyPlayer d uid f) uid' = getPlayerD d uid' := by
  unfold modifyPlayer
  show ((alookup uid' (aset uid _ (ensurePlayer d uid).players)).getD Player.fresh) = _
  rw [alookup_aset_ne h]
  exact getPlayerD_ensure d uid uid'

theorem findActiveMatch_status {chatId : Int} {l : List (DuelKey × Duel)}
    {key : DuelKey} {duel : Duel} (h : findActiveMatch chatId l = some (key, duel)) :
    duel.status = DuelStatus.active := by
  induction l with
  | nil => simp [findActiveMatch] at h
  | cons p rest ih =>
    unfold findActiveMatch at h
    split at h
    · rename_i hc
      cases h
      exact hc.1
    · exact ih h

theorem posterOf_ne {chatId : Int} {duel : Duel}
    (h : duel.challengerId ≠ duel.challengedId) :
    (posterOf chatId duel).1 ≠ (posterOf chatId duel).2 := by
  unfold posterOf
  split
  · exact h
  · exact fun hk => h hk.symm

theorem getPlayerD_congr {d d' : Data} (h : d.players = d'.players) (uid : Int) :
    getPlayerD d uid = getPlayerD d' uid := by
  unfold getPlayerD
  rw [h]

/-! ### Case analysis of `handle_video` -/

theorem handle_video_settle (d : Data) (chatId : Int) (sz : Nat) (now : Int)
    (key : DuelKey) (duel : Duel)
    (hfind : findActiveMatch chatId d.duels = some (key, duel))
    (hbig : VIDEO_MIN_SIZE ≤ sz) :
    handle_video d chatId sz now
      = settleDuel d key duel (posterOf chatId duel).1 (posterOf chatId duel).2 sz now := by
  have hz : ¬ sz = 0 := by
    unfold VIDEO_MIN_SIZE at hbig
    omega
  have hnl : ¬ sz < VIDEO_MIN_SIZE := Nat.not_lt.mpr hbig
  unfold handle_video
  simp only [hfind, if_neg hz, if_neg hnl]

theorem handle_video_penalty (d : Data) (chatId : Int) (sz : Nat) (now : Int)
    (key : DuelKey) (duel : Duel)
    (hfind : findActiveMatch chatId d.duels = some (key, duel))
    (hpos : 0 < sz) (hsmall : sz < VIDEO_MIN_SIZE) :
    handle_video d chatId sz now
      = applyPenalty d key duel (posterOf chatId duel).1
          { ts := now, sizeBytes := sz, big := false } := by
  have hz : ¬ sz = 0 := by omega
  unfold handle_video
  simp only [hfind, if_neg hz, if_pos hsmall]

theorem settleDuel_players (d : Data) (key : DuelKey) (duel : Duel)
    (poster opp : Int) (sz : Nat) (now : Int) :
    (settleDuel d key duel poster opp sz now).players
      = (modifyPlayer
          (modifyPlayer d poster (fun p =>
            { p with
              points := p.points + (if poster ∈ duel.penaltyFlag then (6 : Int) else 3),
              wins := p.wins + 1, duelsPlayed := p.duelsPlayed + 1 }))
          opp (fun p =>
            { p with
              points := p.points - 1, losses := p.losses + 1,
              duelsPlayed := p.duelsPlayed + 1 })).players := rfl

theorem settleDuel_duels (d : Data) (key : DuelKey) (duel : Duel)
    (poster opp : Int) (sz : Nat) (now : Int) :
    (settleDuel d key duel poster opp sz now).duels = aerase key d.duels := by
  simp only [settleDuel]
  rw [modifyPlayer_duels, modifyPlayer_duels]

theorem applyPenalty_duels (d : Data) (key : DuelKey) (duel : Duel)
    (poster : Int) (vrec : VideoRecord) :
    (applyPenalty d key duel poster vrec).duels
      = aset key
          { duel with
            videoTimestamps := aset poster vrec duel.videoTimestamps,
            penaltyFlag :=
              if poster ∈ duel.penaltyFlag then duel.penaltyFlag
              else duel.penaltyFlag ++ [poster] }
          d.duels := by
  simp only [applyPenalty]
  rw [modifyPlayer_duels]

theorem applyPenalty_poster_points (d : Data) (key : DuelKey) (duel : Duel)
    (poster : Int) (vrec : VideoRecord) :
    (getPlayerD (applyPenalty d key duel poster vrec) poster).points
      = (getPlayerD d poster).points - 3 := by
  simp only [applyPenalty]
  rw [getPlayerD_modify_self]
  rfl

/-! ### Concrete fixtures -/

def pA : Player :=
  { points := 0, wins := 0, losses := 0, duelsPlayed := 0, channelId := some 10 }

def pB : Player :=
  { points := 0, wins := 0, losses := 0, duelsPlayed := 0, channelId := some 20 }

def pC : Player :=
  { points := 0, wins := 0, losses := 0, duelsPlayed := 0, channelId := some 30 }

def duelAB : Duel :=
  { challengerId := 1, challengedId := 2, challengerChannel := 10, challengedChannel := 20,
    status := DuelStatus.active, createdAt := 0, scheduledTs := none, startedAt := some 0,
    penaltyFlag := [], videoTimestamps := [] }

def duelAC : Duel :=
  { challengerId := 1, challengedId := 3, challengerChannel := 10, challengedChannel := 30,
    status := DuelStatus.active, createdAt := 0, scheduledTs := none, startedAt := some 0,
    penaltyFlag := [], videoTimestamps := [] }

/-- `duelAB` after a first sub-threshold arrival of 1000 bytes at time 100. -/
def duelABpen : Duel :=
  { duelAB with
    penaltyFlag := [1],
    videoTimestamps := [(1, { ts := 100, sizeBytes := 1000, big := false })] }

def dataActive : Data :=
  { players := [(1, pA), (2, pB)], duels := [((1, 2), duelAB)], history := [] }

def dataTwo : Data :=
  { players := [(1, pA), (2, pB), (3, pC)],
    duels := [((1, 2), duelAB), ((1, 3), duelAC)], history := [] }

def dataNoDuel : Data :=
  { players := [(1, pA), (2, pB)], duels := [], history := [] }

def dataEmpty : Data :=
  { players := [], duels := [], history := [] }

/-! ### Claims -/

/-- C1 (counterexample): the claim that a second artifact-arrival event from a
participant with a recorded arrival in the same duel is ignored is false: after
a first 1000-byte arrival is recorded for participant 1 (score −3), a second
1000-byte arrival is reprocessed and takes the score to −6. -/
theorem C1_counterexample :
    ((alookup ((1 : Int), (2 : Int)) (handle_video dataActive 10 1000 100).duels).map
      (fun duel => (alookup 1 duel.videoTimestamps).isSome)) = some true
    ∧ (getPlayerD (handle_video dataActive 10 1000 100) 1).points = -3
    ∧ (getPlayerD (handle_video (handle_video dataActive 10 1000 100) 10 1000 200) 1).points
        = -6 := by
  decide

/-- C1 (amended): a second artifact-arrival event from a participant who
already has a recorded arrival in the duel is reprocessed like a first
arrival, not ignored: in particular a second sub-threshold arrival applies a
further −3 to that participant's score. -/
theorem C1_second_arrival_reprocessed (d : Data) (chatId : Int) (sz : Nat) (now : Int)
    (key : DuelKey) (duel : Duel)
    (hfind : findActiveMatch chatId d.duels = some (key, duel))
    (_hrec : (alookup (posterOf chatId duel).1 duel.videoTimestamps).isSome = true)
    (hpos : 0 < sz) (hsmall : sz < VIDEO_MIN_SIZE) :
    (getPlayerD (handle_video d chatId sz now) (posterOf chatId duel).1).points
      = (getPlayerD d (posterOf chatId duel).1).points - 3 := by
  rw [handle_video_penalty d chatId sz now key duel hfind hpos hsmall]
  exact applyPenalty_poster_points d key duel (posterOf chatId duel).1 _

theorem C1_amended_witness :
    (getPlayerD (handle_video (handle_video dataActive 10 1000 100) 10 999 200)
        (posterOf 10 duelABpen).1).points
      = (getPlayerD (handle_video dataActive 10 1000 100) (posterOf 10 duelABpen).1).points
          - 3 :=
  C1_second_arrival_reprocessed (handle_video dataActive 10 1000 100) 10 999 200
    (1, 2) duelABpen (by decide) (by decide) (by decide) (by decide)

/-- C2: when a qualifying arrival (size ≥ 70 MiB) settles an active duel, the
winner's score increases by exactly 6 if the winner is in the duel's penalty
flags (comeback rule) and by exactly 3 otherwise. -/
theorem C2_winner_comeback_bonus (d : Data) (chatId : Int) (sz : Nat) (now : Int)
    (key : DuelKey) (duel : Duel)
    (hfind : findActiveMatch chatId d.duels = some (key, duel))
    (hbig : VIDEO_MIN_SIZE ≤ sz)
    (hne : duel.challengerId ≠ duel.challengedId) :
    (getPlayerD (handle_video d chatId sz now) (posterOf chatId duel).1).points
      = (getPlayerD d (posterOf chatId duel).1).points
        + (if (posterOf chatId duel).1 ∈ duel.penaltyFlag then 6 else 3) := by
  have hpo : (posterOf chatId duel).1 ≠ (posterOf chatId duel).2 := posterOf_ne hne
  rw [handle_video_settle d chatId sz now key duel hfind hbig]
  rw [getPlayerD_congr (settleDuel_players d key duel _ _ sz now) _]
  rw [getPlayerD_modify_ne _ hpo _]
  rw [getPlayerD_modify_self]

theorem C2_witness :
    (getPlayerD (handle_video dataActive 10 VIDEO_MIN_SIZE 100) (posterOf 10 duelAB).1).points
      = (getPlayerD dataActive (posterOf 10 duelAB).1).points
        + (if (posterOf 10 duelAB).1 ∈ duelAB.penaltyFlag then 6 else 3) :=
  C2_winner_comeback_bonus dataActive 10 VIDEO_MIN_SIZE 100 (1, 2) duelAB (by decide)
    (le_refl _) (by decide)

/-- C3: when a qualifying arrival settles an active duel, the opponent's score
decreases by exactly 1, with no condition on whether the opponent ever posted. -/
theorem C3_loser_minus_one (d : Data) (chatId : Int) (sz : Nat) (now : Int)
    (key : DuelKey) (duel : Duel)
    (hfind : findActiveMatch chatId d.duels = some (key, duel))
    (hbig : VIDEO_MIN_SIZE ≤ sz)
    (hne : duel.challengerId ≠ duel.challengedId) :
    (getPlayerD (handle_video d chatId sz now) (posterOf chatId duel).2).points
      = (getPlayerD d (posterOf chatId duel).2).points - 1 := by
  have hpo : (posterOf chatId duel).1 ≠ (posterOf chatId duel).2 := posterOf_ne hne
  rw [handle_video_settle d chatId sz now key duel hfind hbig]
  rw [getPlayerD_congr (settleDuel_players d key duel _ _ sz now) _]
  rw [getPlayerD_modify_self]
  rw [getPlayerD_modify_ne _ (Ne.symm hpo) _]

theorem C3_witness :
    (getPlayerD (handle_video dataActive 10 VIDEO_MIN_SIZE 100) (posterOf 10 duelAB).2).points
      = (getPlayerD dataActive (posterOf 10 duelAB).2).points - 1 :=
  C3_loser_minus_one dataActive 10 VIDEO_MIN_SIZE 100 (1, 2) duelAB (by decide)
    (le_refl _) (by decide)

/-- C4: a sub-threshold arrival on an active duel's snapshotted channel is a
penalty, not a settlement: the poster's score drops by exactly 3, the poster
is added to the duel's penalty flags, and the duel stays in the store with
status still active. -/
theorem C4_penalty_not_settlement (d : Data) (chatId : Int) (sz : Nat) (now : Int)
    (key : DuelKey) (duel : Duel)
    (hfind : findActiveMatch chatId d.duels = some (key, duel))
    (hpos : 0 < sz) (hsmall : sz < VIDEO_MIN_SIZE) :
    (getPlayerD (handle_video d chatId sz now) (posterOf chatId duel).1).points
      = (getPlayerD d (posterOf chatId duel).1).points - 3
    ∧ ∃ duel1 : Duel,
        alookup key (handle_video d chatId sz now).duels = some duel1
        ∧ (posterOf chatId duel).1 ∈ duel1.penaltyFlag
        ∧ duel1.status = DuelStatus.active := by
  rw [handle_video_penalty d chatId sz now key duel hfind hpos hsmall]
  constructor
  · exact applyPenalty_poster_points d key duel (posterOf chatId duel).1 _
  · refine ⟨{ duel with
        videoTimestamps := aset (posterOf chatId duel).1
          { ts := now, sizeBytes := sz, big := false } duel.videoTimestamps,
        penaltyFlag :=
          if (posterOf chatId duel).1 ∈ duel.penaltyFlag then duel.penaltyFlag
          else duel.penaltyFlag ++ [(posterOf chatId duel).1] }, ?_, ?_, ?_⟩
    · rw [applyPenalty_duels]
      exact alookup_aset_self key _ d.duels
    · show (posterOf chatId duel).1 ∈
        (if (posterOf chatId duel).1 ∈ duel.penaltyFlag then duel.penaltyFlag
          else duel.penaltyFlag ++ [(posterOf chatId duel).1])
      by_cases hmem : (posterOf chatId duel).1 ∈ duel.penaltyFlag
      · rw [if_pos hmem]
        exact hmem
      · rw [if_neg hmem]
        exact List.mem_append_right _ (List.mem_singleton.mpr rfl)
    · show duel.status = DuelStatus.active
      exact findActiveMatch_status hfind

theorem C4_witness :
    (getPlayerD (handle_video dataActive 10 1000 100) (posterOf 10 duelAB).1).points
      = (getPlayerD dataActive (posterOf 10 duelAB).1).points - 3
    ∧ ∃ duel1 : Duel,
        alookup (1, 2) (handle_video dataActive 10 1000 100).duels = some duel1
        ∧ (posterOf 10 duelAB).1 ∈ duel1.penaltyFlag
        ∧ duel1.status = DuelStatus.active :=
  C4_penalty_not_settlement dataActive 10 1000 100 (1, 2) duelAB (by decide)
    (by decide) (by decide)

/-- C5: a create-duel request whose resolved schedule instant is less than
2 minutes (120 s) after the current time is rejected with the
invalid-schedule-time error, the store is unchanged (no duel written) and the
accept timer is not armed. -/
theorem C5_schedule_lead_time (d : Data) (cid tid : Int) (ts now : Int)
    (targetP : Player) (cch tch : Int)
    (htp : alookup tid d.players = some targetP)
    (hself : tid ≠ cid)
    (hcch : (getPlayerD d cid).channelId = some cch)
    (htch : targetP.channelId = some tch)
    (hkey : alookup (duelKey cid tid) d.duels = none)
    (hts : ts < now + 120) :
    cmd_duel d cid tid (some ts) now
      = { store := d, acceptTimerArmed := false,
          result := DuelCmdResult.invalidScheduleTime } := by
  simp [cmd_duel, htp, hself, getPlayerD_ensure, hcch, htch, ensurePlayer_duels,
    hkey, hts]

theorem C5_witness :
    cmd_duel dataNoDuel 1 2 (some 100) 0
      = { store := dataNoDuel, acceptTimerArmed := false,
          result := DuelCmdResult.invalidScheduleTime } :=
  C5_schedule_lead_time dataNoDuel 1 2 100 0 pB 10 20 (by decide) (by decide)
    (by decide) (by decide) (by decide) (by decide)

/-- C6: a create-duel request for a pair whose canonical sorted-pair key is
already present in the duel store fails with the duel-already-exists error and
leaves the store unchanged; the key is symmetric in the two identities. -/
theorem C6_pair_exclusivity (d : Data) (cid tid : Int) (sched : Option Int) (now : Int)
    (targetP : Player) (cch tch : Int) (duel : Duel)
    (htp : alookup tid d.players = some targetP)
    (hself : tid ≠ cid)
    (hcch : (getPlayerD d cid).channelId = some cch)
    (htch : targetP.channelId = some tch)
    (hdup : alookup (duelKey cid tid) d.duels = some duel) :
    cmd_duel d cid tid sched now
      = { store := d, acceptTimerArmed := false,
          result := DuelCmdResult.duelAlreadyExists }
    ∧ duelKey cid tid = duelKey tid cid := by
  constructor
  · simp [cmd_duel, htp, hself, getPlayerD_ensure, hcch, htch, ensurePlayer_duels, hdup]
  · unfold duelKey
    rw [min_comm, max_comm]

theorem C6_witness :
    cmd_duel dataActive 1 2 none 0
      = { store := dataActive, acceptTimerArmed := false,
          result := DuelCmdResult.duelAlreadyExists }
    ∧ duelKey 1 2 = duelKey 2 1 :=
  C6_pair_exclusivity dataActive 1 2 none 0 pB 10 20 duelAB (by decide) (by decide)
    (by decide) (by decide) (by decide)

/-- C7: when the video timeout fires on a duel that is still active, the duel
is removed from the store and both the players table (all scores and
win/loss/played counters) and the history log are exactly as before. -/
theorem C7_timeout_draw (d : Data) (key : DuelKey) (duel : Duel)
    (hk : alookup key d.duels = some duel)
    (hact : duel.status = DuelStatus.active) :
    alookup key (duel_video_timeout d key).duels = none
    ∧ (duel_video_timeout d key).players = d.players
    ∧ (duel_video_timeout d key).history = d.history := by
  simp [duel_video_timeout, hk, hact, alookup_aerase_self]

theorem C7_witness :
    alookup (1, 2) (duel_video_timeout dataActive (1, 2)).duels = none
    ∧ (duel_video_timeout dataActive (1, 2)).players = dataActive.players
    ∧ (duel_video_timeout dataActive (1, 2)).history = dataActive.history :=
  C7_timeout_draw dataActive (1, 2) duelAB (by decide) (by decide)

/-- C8: every timer callback re-reads the stored status and is a silent no-op
unless the status still matches the precondition it was armed under: the
accept timeout acts only on a stored pending duel, the scheduled start only on
a stored scheduled duel, the video timeout only on a stored active duel; when
the duel was removed or has any other status, the store is unchanged and no
follow-up timer is armed. -/
theorem C8_timer_stale_noop (d : Data) (key : DuelKey) (now : Int) :
    (statusAt d key ≠ some DuelStatus.pending → duel_accept_timeout d key = d)
    ∧ (statusAt d key ≠ some DuelStatus.scheduled →
        scheduled_duel_start_fire d key now = { store := d, videoTimerArmed := false })
    ∧ (statusAt d key ≠ some DuelStatus.active → duel_video_timeout d key = d) := by
  refine ⟨?_, ?_, ?_⟩
  · intro h
    unfold statusAt at h
    unfold duel_accept_timeout
    cases hc : alookup key d.duels with
    | none => rfl
    | some duel =>
      rw [hc] at h
      have h2 : duel.status ≠ DuelStatus.pending := by
        intro he
        exact h (by simp [he])
      simp [h2]
  · intro h
    unfold statusAt at h
    unfold scheduled_duel_start_fire
    cases hc : alookup key d.duels with
    | none => rfl
    | some duel =>
      rw [hc] at h
      have h2 : duel.status ≠ DuelStatus.scheduled := by
        intro he
        exact h (by simp [he])
      simp [h2]
  · intro h
    unfold statusAt at h
    unfold duel_video_timeout
    cases hc : alookup key d.duels with
    | none => rfl
    | some duel =>
      rw [hc] at h
      have h2 : duel.status ≠ DuelStatus.active := by
        intro he
        exact h (by simp [he])
      simp [h2]

theorem C8_witness :
    duel_accept_timeout dataEmpty (1, 2) = dataEmpty
    ∧ scheduled_duel_start_fire dataEmpty (1, 2) 0
        = { store := dataEmpty, videoTimerArmed := false }
    ∧ duel_video_timeout dataEmpty (1, 2) = dataEmpty :=
  ⟨(C8_timer_stale_noop dataEmpty (1, 2) 0).1 (by decide),
   (C8_timer_stale_noop dataEmpty (1, 2) 0).2.1 (by decide),
   (C8_timer_stale_noop dataEmpty (1, 2) 0).2.2 (by decide)⟩

/-- C9 (counterexample): the claim that cancel removes a duel only before
activation is false: with a single active duel involving the caller,
`cmd_cancel` removes it and does not answer the no-duel error. -/
theorem C9_counterexample :
    statusAt dataActive (1, 2) = some DuelStatus.active
    ∧ (cmd_cancel dataActive 1).2 = CancelResult.cancelled (1, 2)
    ∧ alookup (1, 2) (cmd_cancel dataActive 1).1.duels = none := by
  decide

/-- C9 (amended): cancel by either participant removes the caller's first
stored duel regardless of its status — pending, scheduled or active alike —
and the no-duel error is returned only when the caller participates in no
stored duel. -/
theorem C9_cancel_any_status (d : Data) (userId : Int) (key : DuelKey) (duel : Duel)
    (h : findUserDuel userId d.duels = some (key, duel)) :
    alookup key (cmd_cancel d userId).1.duels = none
    ∧ (cmd_cancel d userId).2 = CancelResult.cancelled key := by
  unfold cmd_cancel
  rw [h]
  exact ⟨alookup_aerase_self key d.duels, rfl⟩

theorem C9_amended_witness :
    alookup (1, 2) (cmd_cancel dataActive 1).1.duels = none
    ∧ (cmd_cancel dataActive 1).2 = CancelResult.cancelled (1, 2) :=
  C9_cancel_any_status dataActive 1 (1, 2) duelAB (by decide)

/-- C10: one artifact-arrival event is applied to at most one duel: it
penalises or settles only the first matching active duel in store iteration
order, and every other stored duel (matching or not) is left unchanged. -/
theorem C10_single_duel_per_event (d : Data) (chatId : Int) (sz : Nat) (now : Int)
    (key : DuelKey) (duel : Duel)
    (hfind : findActiveMatch chatId d.duels = some (key, duel))
    (hpos : 0 < sz) :
    ∀ key' : DuelKey, key' ≠ key →
      alookup key' (handle_video d chatId sz now).duels = alookup key' d.duels := by
  intro key' hk
  by_cases hbig : VIDEO_MIN_SIZE ≤ sz
  · rw [handle_video_settle d chatId sz now key duel hfind hbig]
    rw [settleDuel_duels]
    exact alookup_aerase_ne hk d.duels
  · rw [handle_video_penalty d chatId sz now key duel hfind hpos (Nat.not_le.mp hbig)]
    rw [applyPenalty_duels]
    exact alookup_aset_ne hk _ d.duels

theorem C10_witness :
    alookup (1, 3) (handle_video dataTwo 10 1000 50).duels
      = alookup (1, 3) dataTwo.duels :=
  C10_single_duel_per_event dataTwo 10 1000 50 (1, 2) duelAB (by decide) (by decide)
    (1, 3) (by decide)

end DuelBot
